import Mathlib

/-!
Shallow embedding of the adaptive multi-signal fusion core of the
ai-agent-nifty-trading-platform repository.

Numbers are modelled as rationals; JavaScript Math.round is modelled as
jsRound (floor of x + 1/2), Math.min / Math.max as min / max.

Embedded source units:
- the agent orchestrator (aggregateSignals and its helpers), from the
  orchestrator service file;
- the performance tracker (trackPrediction, validatePrediction,
  calculateAccuracy, calculateConfidenceAccuracy, adjustModelWeights,
  getRecentAccuracy, calculateConfidenceCalibration), from
  backend/services/performanceTracker.js;
- the historical analysis service (calculatePatternAccuracy,
  calculateConfidenceAdjustment, identifyDominantPattern), from the
  historical analysis service file.
-/

/-- JavaScript Math.round on rationals: floor of q + 1/2. -/
def jsRound (q : ℚ) : ℤ := ⌊q + 1/2⌋

/-- Signal values appearing in the repository (agent signals and the risk
agent's trade signals). -/
inductive Sig where
  | BUY
  | SELL
  | HOLD
  | APPROVE_TRADE
  | AVOID_TRADE
  | CAUTIOUS_TRADE
deriving DecidableEq, Repr

/-- One agent's result as consumed by aggregateSignals: a possibly missing
signal and a possibly missing confidence (JS undefined is none). -/
structure AgentResult where
  signal : Option Sig
  confidence : Option ℚ
deriving DecidableEq, Repr

/-- The JS expression (result.confidence || 50): undefined and 0 are both
falsy, so they yield 50. -/
def confOr50 (r : AgentResult) : ℚ :=
  match r.confidence with
  | none => 50
  | some c => if c = 0 then 50 else c

/-- Accumulator of the aggregateSignals forEach loop: the three weighted
signal buckets, the confidence total, and the count of valid agents. -/
structure SignalTotals where
  buy : ℚ
  sell : ℚ
  hold : ℚ
  totalConfidence : ℚ
  validAgents : ℕ

/-- One iteration of the aggregateSignals loop body for a non-risk agent
with configured weight w.  A missing signal is skipped; otherwise the
weighted score (weight × confidence / 100) is added to the BUY bucket for
BUY or APPROVE_TRADE, to the SELL bucket for SELL, and to the HOLD bucket
otherwise, while totalConfidence and validAgents accumulate. -/
def stepAgent (w : ℚ) (r : AgentResult) (t : SignalTotals) : SignalTotals :=
  match r.signal with
  | none => t
  | some s =>
      let conf := confOr50 r
      let ws := w * conf / 100
      { buy := t.buy + (if s = Sig.BUY ∨ s = Sig.APPROVE_TRADE then ws else 0),
        sell := t.sell + (if ¬(s = Sig.BUY ∨ s = Sig.APPROVE_TRADE) ∧ s = Sig.SELL then ws else 0),
        hold := t.hold + (if ¬(s = Sig.BUY ∨ s = Sig.APPROVE_TRADE) ∧ ¬s = Sig.SELL then ws else 0),
        totalConfidence := t.totalConfidence + conf,
        validAgents := t.validAgents + 1 }

/-- The four agent results handed to aggregateSignals, keyed as in the
orchestrator (technical, sentiment, research, risk). -/
structure OrchResults where
  technical : AgentResult
  sentiment : AgentResult
  research : AgentResult
  risk : AgentResult
deriving DecidableEq, Repr

/-- The orchestrator's per-agent weight table (this.agentWeights). -/
structure AgentWeights where
  technical : ℚ
  sentiment : ℚ
  research : ℚ
  risk : ℚ

/-- Constructor defaults: technical 0.35, sentiment 0.25, research 0.25,
risk 0.15. -/
def defaultAgentWeights : AgentWeights :=
  { technical := 35/100, sentiment := 25/100, research := 25/100, risk := 15/100 }

/-- The loop of aggregateSignals runs over the result keys in insertion
order (technical, sentiment, research, risk); the risk entry is excluded
by the agentType check, so only the first three accumulate. -/
def aggTotals (w : AgentWeights) (res : OrchResults) : SignalTotals :=
  stepAgent w.research res.research
    (stepAgent w.sentiment res.sentiment
      (stepAgent w.technical res.technical
        { buy := 0, sell := 0, hold := 0, totalConfidence := 0, validAgents := 0 }))

/-- The risk management modifier: 0.3 for AVOID_TRADE, 0.7 for
CAUTIOUS_TRADE, otherwise 1.0 (including a missing risk signal). -/
def riskModifier (r : AgentResult) : ℚ :=
  match r.signal with
  | some Sig.AVOID_TRADE => 3/10
  | some Sig.CAUTIOUS_TRADE => 7/10
  | _ => 1

/-- The final-signal selection of aggregateSignals: the maximum bucket
wins only if it also exceeds the 0.4 activation threshold, else HOLD. -/
def finalActionOf (t : SignalTotals) : Sig :=
  let maxSignal := max t.buy (max t.sell t.hold)
  if t.buy = maxSignal ∧ t.buy > 2/5 then Sig.BUY
  else if t.sell = maxSignal ∧ t.sell > 2/5 then Sig.SELL
  else Sig.HOLD

/-- The record returned by aggregateSignals (reasoning text omitted). -/
structure AggSignal where
  action : Sig
  confidence : ℤ
  strengthBuy : ℤ
  strengthSell : ℤ
  strengthHold : ℤ
  riskAdjustment : ℤ
deriving DecidableEq, Repr

/-- aggregateSignals of the orchestrator: accumulate the weighted buckets
over the non-risk agents, pick the action from the dominant bucket above
the 0.4 threshold, average the contributing confidences, multiply by the
risk modifier, round, and clamp the result into the interval from 20 to
95. -/
def aggregateSignals (w : AgentWeights) (res : OrchResults) : AggSignal :=
  let t := aggTotals w res
  let m := riskModifier res.risk
  let baseConfidence : ℚ := if t.validAgents > 0 then t.totalConfidence / t.validAgents else 50
  let adjustedConfidence := jsRound (baseConfidence * m)
  { action := finalActionOf t,
    confidence := max 20 (min 95 adjustedConfidence),
    strengthBuy := jsRound (t.buy * 100),
    strengthSell := jsRound (t.sell * 100),
    strengthHold := jsRound (t.hold * 100),
    riskAdjustment := jsRound ((1 - m) * 100) }

/-- The weighted vote mass accumulated when all three non-risk agents
report: the sum of weight × confidence / 100 over technical, sentiment
and research. -/
def weightedVoteSum (w : AgentWeights) (res : OrchResults) : ℚ :=
  w.technical * confOr50 res.technical / 100 +
    w.sentiment * confOr50 res.sentiment / 100 +
      w.research * confOr50 res.research / 100

/-- Historical sample as filtered by findSimilarConditions: its recorded
signal and realized outcome (percent move). -/
structure HistSample where
  signal : Sig
  actualOutcome : ℚ
deriving DecidableEq, Repr

/-- calculatePatternAccuracy of the historical analysis service: with no
similar conditions the neutral 50 is returned; otherwise the rounded share
of directionally correct samples (BUY with positive move, SELL with
negative move, HOLD with absolute move below 0.1). -/
def calculatePatternAccuracy (similar : List HistSample) : ℚ :=
  if similar.length = 0 then 50
  else
    let correct := similar.filter fun c =>
      (c.signal == Sig.BUY && decide (c.actualOutcome > 0)) ||
        (c.signal == Sig.SELL && decide (c.actualOutcome < 0)) ||
          (c.signal == Sig.HOLD && decide (|c.actualOutcome| < 1/10))
    ((jsRound ((correct.length : ℚ) / (similar.length : ℚ) * 100) : ℚ))

/-- calculateConfidenceAdjustment of the historical analysis service:
tiered multiplier from the pattern accuracy. -/
def calculateConfidenceAdjustment (accuracy : ℚ) : ℚ :=
  if accuracy ≥ 80 then 12/10
  else if accuracy ≥ 60 then 1
  else if accuracy ≥ 40 then 8/10
  else 6/10

/-- identifyDominantPattern of the historical analysis service: the
majority signal among similar conditions, with Math.max tie resolution
checked in the order BUY, SELL, HOLD. -/
def identifyDominantPattern (similar : List HistSample) : String :=
  if similar.length = 0 then "INSUFFICIENT_DATA"
  else
    let buyCount := (similar.filter fun c => c.signal == Sig.BUY).length
    let sellCount := (similar.filter fun c => c.signal == Sig.SELL).length
    let holdCount := (similar.filter fun c => c.signal == Sig.HOLD).length
    let m := max buyCount (max sellCount holdCount)
    if m = buyCount then "BULLISH_PATTERN"
    else if m = sellCount then "BEARISH_PATTERN"
    else "NEUTRAL_PATTERN"

/-- calculateConfidenceAccuracy of the performance tracker: a calibration
score from the gap between stated confidence and achieved base accuracy. -/
def calculateConfidenceAccuracy (confidence baseAccuracy : ℚ) : ℚ :=
  let confidenceError := |confidence - baseAccuracy|
  if confidenceError < 10 then 100
  else if confidenceError < 20 then 80
  else if confidenceError < 30 then 60
  else 40

/-- calculateAccuracy of the performance tracker: a base accuracy from the
signal against the realized move (tiered for HOLD, linear reward for a
directionally correct BUY or SELL, linear penalty otherwise), averaged
with the confidence calibration score and clamped into the interval from
0 to 100. -/
def calculateAccuracy (signal : Sig) (actualMove : ℚ) (confidence : ℚ) : ℚ :=
  let baseAccuracy :=
    if signal = Sig.BUY ∧ actualMove > 0 then min 100 (70 + actualMove * 10)
    else if signal = Sig.SELL ∧ actualMove < 0 then min 100 (70 + |actualMove| * 10)
    else if signal = Sig.HOLD ∧ |actualMove| < 2/10 then 80
    else if signal = Sig.HOLD ∧ |actualMove| < 5/10 then 60
    else max 0 (30 - |actualMove| * 5)
  let confidenceAccuracy := calculateConfidenceAccuracy confidence baseAccuracy
  max 0 (min 100 ((baseAccuracy + confidenceAccuracy) / 2))

/-- The tracker's model weight table (this.modelWeights). -/
structure ModelWeights where
  ai : ℚ
  technical : ℚ
  historical : ℚ
deriving DecidableEq, Repr

/-- Constructor defaults: ai 0.6, technical 0.4, historical 0.0. -/
def defaultModelWeights : ModelWeights := { ai := 6/10, technical := 4/10, historical := 0 }

/-- The tracker's accuracy thresholds (this.accuracyThresholds). -/
structure AccuracyThresholds where
  excellent : ℚ
  good : ℚ
  poor : ℚ

/-- Constructor defaults: excellent 80, good 65, poor 45. -/
def defaultAccuracyThresholds : AccuracyThresholds := { excellent := 80, good := 65, poor := 45 }

/-- adjustModelWeights of the performance tracker, with the data it reads
made explicit: the validated accuracy, the prediction's stored agentData
weights, and the recent overall accuracy.  Above the excellent threshold
the ai weight is nudged up by 0.02 capped at 0.8 and the technical weight
down floored at 0.2 (when the guards hold); below the poor threshold the
ai weight is nudged down by 0.03 floored at 0.3 and the technical weight
up capped at 0.7. -/
def adjustModelWeights (mw : ModelWeights) (accuracy aiWeight traditionalWeight recentOverall : ℚ) :
    ModelWeights :=
  if accuracy > defaultAccuracyThresholds.excellent then
    if aiWeight > traditionalWeight ∧ accuracy > recentOverall then
      { mw with ai := min (8/10) (mw.ai + 2/100), technical := max (2/10) (mw.technical - 2/100) }
    else mw
  else if accuracy < defaultAccuracyThresholds.poor then
    if aiWeight > traditionalWeight then
      { mw with ai := max (3/10) (mw.ai - 3/100), technical := min (7/10) (mw.technical + 3/100) }
    else mw
  else mw

/-- A tracked prediction as stored in this.predictions; the agentData
object is flattened to the two weights adjustModelWeights reads. -/
structure Prediction where
  id : ℕ
  signal : Sig
  confidence : ℚ
  targetPrice : ℚ
  actualOutcome : Option ℚ
  accuracy : Option ℚ
  actualPrice : Option ℚ
  aiWeight : ℚ
  traditionalWeight : ℚ
deriving DecidableEq, Repr

/-- An entry of this.results pushed by validatePrediction. -/
structure ResultEntry where
  id : ℕ
  signal : Sig
  predicted : ℚ
  actual : ℚ
  accuracy : ℚ
  confidence : ℚ
deriving DecidableEq, Repr

/-- The tracker's mutable state: the rolling prediction buffer, the
rolling results buffer, and the model weights. -/
structure TrackerState where
  predictions : List Prediction
  results : List ResultEntry
  modelWeights : ModelWeights
deriving DecidableEq, Repr

/-- this.maxPredictions = 500. -/
def maxPredictions : ℕ := 500

/-- trackPrediction: append the new prediction, then keep only the last
maxPredictions entries (FIFO eviction via slice). -/
def trackPrediction (s : TrackerState) (p : Prediction) : TrackerState :=
  let preds := s.predictions ++ [p]
  { s with predictions := if preds.length > maxPredictions
      then preds.drop (preds.length - maxPredictions) else preds }

/-- The overall field of getRecentAccuracy: the mean accuracy of the last
count validated predictions, or the neutral 50 when none exist. -/
def getRecentAccuracyOverall (preds : List Prediction) (count : ℕ) : ℚ :=
  let valid := preds.filter fun p => p.actualOutcome.isSome
  let recent := valid.drop (valid.length - count)
  if recent.length = 0 then 50
  else ((recent.map fun p => p.accuracy.getD 0).sum) / (recent.length : ℚ)

/-- Replace the first prediction carrying the given id (the in-place
mutation of the object found by this.predictions.find). -/
def replaceFirst : List Prediction → ℕ → Prediction → List Prediction
  | [], _, _ => []
  | q :: qs, pid, pNew => if q.id == pid then pNew :: qs else q :: replaceFirst qs pid pNew

/-- validatePrediction of the performance tracker, with the externally
fetched current price passed in.  If no prediction with the given id is
in the buffer, or the found prediction already has an actualOutcome, the
state is returned unchanged.  Otherwise the realized move and accuracy are
computed, the prediction is resolved in place, a result entry is appended
(with FIFO trimming), and the model weights are adjusted using the recent
accuracy over the mutated buffer. -/
def validatePrediction (s : TrackerState) (predictionId : ℕ) (actualPrice : ℚ) : TrackerState :=
  match s.predictions.find? (fun p => p.id == predictionId) with
  | none => s
  | some p =>
      if p.actualOutcome.isSome then s
      else
        let actualMove := (actualPrice - p.targetPrice) / p.targetPrice * 100
        let acc := calculateAccuracy p.signal actualMove p.confidence
        let pRes := { p with actualOutcome := some actualMove,
                             accuracy := some acc,
                             actualPrice := some actualPrice }
        let preds := replaceFirst s.predictions predictionId pRes
        let res := s.results ++
          [{ id := p.id, signal := p.signal, predicted := p.targetPrice,
             actual := actualPrice, accuracy := acc, confidence := p.confidence }]
        let recentOverall := getRecentAccuracyOverall preds 20
        let mw := adjustModelWeights s.modelWeights acc p.aiWeight p.traditionalWeight recentOverall
        { predictions := preds,
          results := if res.length > maxPredictions
            then res.drop (res.length - maxPredictions) else res,
          modelWeights := mw }

/-- The four fixed confidence ranges of calculateConfidenceCalibration. -/
def calibRanges : List (ℚ × ℚ) := [(80, 100), (60, 79), (40, 59), (20, 39)]

/-- ranges.find of calculateConfidenceCalibration: the first range whose
closed interval contains the confidence, if any. -/
def bucketFor (c : ℚ) : Option (ℚ × ℚ) :=
  if 80 ≤ c ∧ c ≤ 100 then some (80, 100)
  else if 60 ≤ c ∧ c ≤ 79 then some (60, 79)
  else if 40 ≤ c ∧ c ≤ 59 then some (40, 59)
  else if 20 ≤ c ∧ c ≤ 39 then some (20, 39)
  else none

/-- One output row of calculateConfidenceCalibration; the empty-group row
carries calibration 0, count 0 and no averages. -/
structure CalibEntry where
  lo : ℚ
  hi : ℚ
  calibration : ℚ
  count : ℕ
  avgConfidence : Option ℚ
  avgAccuracy : Option ℚ
deriving DecidableEq, Repr

/-- One range's row: the predictions grouped into this range (the first
matching range of each prediction), its average confidence and accuracy,
and their absolute gap. -/
def calibEntryFor (preds : List Prediction) (r : ℚ × ℚ) : CalibEntry :=
  let grp := preds.filter fun p => bucketFor p.confidence == some r
  if grp.length = 0 then
    { lo := r.1, hi := r.2, calibration := 0, count := 0, avgConfidence := none, avgAccuracy := none }
  else
    let avgConfidence := (grp.map fun p => p.confidence).sum / (grp.length : ℚ)
    let avgAccuracy := (grp.map fun p => p.accuracy.getD 0).sum / (grp.length : ℚ)
    { lo := r.1, hi := r.2, calibration := |avgConfidence - avgAccuracy|,
      count := grp.length, avgConfidence := some avgConfidence, avgAccuracy := some avgAccuracy }

/-- calculateConfidenceCalibration of the performance tracker: one row per
fixed range, grouping each prediction into the first range containing its
confidence. -/
def calculateConfidenceCalibration (preds : List Prediction) : List CalibEntry :=
  calibRanges.map (calibEntryFor preds)

/-- The final confidence clamp of enhancedCombineAnalysis in the market
sentiment agent: the rounded raw confidence times the unrounded
multiplier, clamped into the interval from 20 to 95 (this product need
not be an integer). -/
def enhancedFinalConfidence (rawConfidence confidenceMultiplier : ℚ) : ℚ :=
  min 95 (max 20 (rawConfidence * confidenceMultiplier))

/-- One step input for the weight adaptation loop: everything one
validated outcome feeds into adjustModelWeights. -/
structure OutcomeInput where
  accuracy : ℚ
  aiWeight : ℚ
  traditionalWeight : ℚ
  recentOverall : ℚ

/-- Folding adjustModelWeights over a sequence of validated outcomes. -/
def applyOutcomes (mw : ModelWeights) (l : List OutcomeInput) : ModelWeights :=
  l.foldl (fun m o => adjustModelWeights m o.accuracy o.aiWeight o.traditionalWeight o.recentOverall) mw

/-- The bound invariant of the model weight table: the ai weight stays
between its poor-step floor 0.3 and its excellent-step cap 0.8, the
technical weight between its excellent-step floor 0.2 and its poor-step
cap 0.7. -/
def mwInv (m : ModelWeights) : Prop :=
  3/10 ≤ m.ai ∧ m.ai ≤ 8/10 ∧ 2/10 ≤ m.technical ∧ m.technical ≤ 7/10

/-- Example inputs used by the concrete instantiations below. -/
def exAllBuy40 : OrchResults :=
  { technical := { signal := some Sig.BUY, confidence := some 40 },
    sentiment := { signal := some Sig.BUY, confidence := some 40 },
    research := { signal := some Sig.BUY, confidence := some 40 },
    risk := { signal := none, confidence := none } }

def exAllBuy80 : OrchResults :=
  { technical := { signal := some Sig.BUY, confidence := some 80 },
    sentiment := { signal := some Sig.BUY, confidence := some 80 },
    research := { signal := some Sig.BUY, confidence := some 80 },
    risk := { signal := none, confidence := none } }

def exThreeBuy : OrchResults :=
  { technical := { signal := some Sig.BUY, confidence := some 80 },
    sentiment := { signal := some Sig.BUY, confidence := some 70 },
    research := { signal := some Sig.BUY, confidence := some 60 },
    risk := { signal := none, confidence := none } }

def exNoAgents : OrchResults :=
  { technical := { signal := none, confidence := none },
    sentiment := { signal := none, confidence := none },
    research := { signal := none, confidence := none },
    risk := { signal := none, confidence := none } }

def exOneAgent : OrchResults :=
  { technical := { signal := some Sig.BUY, confidence := some 100 },
    sentiment := { signal := none, confidence := none },
    research := { signal := none, confidence := none },
    risk := { signal := none, confidence := none } }

def exResolvedPrediction : Prediction :=
  { id := 1, signal := Sig.BUY, confidence := 80, targetPrice := 100,
    actualOutcome := some (3/2), accuracy := some 90, actualPrice := some (203/2),
    aiWeight := 6/10, traditionalWeight := 4/10 }

def exResolvedState : TrackerState :=
  { predictions := [exResolvedPrediction], results := [], modelWeights := defaultModelWeights }

def exGapPrediction : Prediction :=
  { id := 2, signal := Sig.HOLD, confidence := 79/2 + 40, targetPrice := 100,
    actualOutcome := some 0, accuracy := some 80, actualPrice := some 100,
    aiWeight := 6/10, traditionalWeight := 4/10 }

/-- Helper: whenever both directional buckets are at or below the 0.4
activation threshold, the final action is HOLD. -/
lemma finalActionOf_hold (t : SignalTotals) (hb : t.buy ≤ 2/5) (hs : t.sell ≤ 2/5) :
    finalActionOf t = Sig.HOLD := by
  simp only [finalActionOf]
  split_ifs with h1 h2
  · exact absurd h1.2 (not_lt.mpr hb)
  · exact absurd h2.2 (not_lt.mpr hs)
  · rfl

/-- Helper: one adjustModelWeights step preserves the weight bounds. -/
lemma adjustModelWeights_inv (m : ModelWeights) (a w1 w2 r : ℚ) (h : mwInv m) :
    mwInv (adjustModelWeights m a w1 w2 r) := by
  obtain ⟨h1, h2, h3, h4⟩ := h
  unfold adjustModelWeights mwInv
  split_ifs
  · exact ⟨le_min (by norm_num) (by linarith), min_le_left _ _,
      le_max_left _ _, max_le (by norm_num) (by linarith)⟩
  · exact ⟨h1, h2, h3, h4⟩
  · exact ⟨le_max_left _ _, max_le (by norm_num) (by linarith),
      le_min (by norm_num) (by linarith), min_le_left _ _⟩
  · exact ⟨h1, h2, h3, h4⟩
  · exact ⟨h1, h2, h3, h4⟩

/-- Helper: the fold of adjustModelWeights preserves the weight bounds. -/
lemma applyOutcomes_inv (l : List OutcomeInput) (m : ModelWeights) (h : mwInv m) :
    mwInv (applyOutcomes m l) := by
  induction l generalizing m with
  | nil => exact h
  | cons o tl ih =>
      exact ih _ (adjustModelWeights_inv m o.accuracy o.aiWeight o.traditionalWeight o.recentOverall h)

/-- C1: for every set of agent opinions with at least 2 entries and
weights summing to a positive total, the fused decision's confidence lies
in the interval from 20 to 95 (the clamp is applied after the risk
modifier). -/
theorem c1_fused_confidence_bounds (w : AgentWeights) (res : OrchResults)
    (hn : 2 ≤ (aggTotals w res).validAgents)
    (hw : 0 < w.technical + w.sentiment + w.research + w.risk) :
    20 ≤ (aggregateSignals w res).confidence ∧ (aggregateSignals w res).confidence ≤ 95 := by
  constructor
  · exact le_max_left _ _
  · exact max_le (by norm_num) (min_le_left _ _)

/-- Witness for C1 at a concrete input: three agents report BUY at
confidences 80, 70, 60, the default weights sum to 1. -/
theorem c1_fused_confidence_bounds_witness :
    2 ≤ (aggTotals defaultAgentWeights exThreeBuy).validAgents ∧
    0 < defaultAgentWeights.technical + defaultAgentWeights.sentiment +
      defaultAgentWeights.research + defaultAgentWeights.risk ∧
    (20 ≤ (aggregateSignals defaultAgentWeights exThreeBuy).confidence ∧
      (aggregateSignals defaultAgentWeights exThreeBuy).confidence ≤ 95) :=
  ⟨by decide, by norm_num [defaultAgentWeights],
    c1_fused_confidence_bounds defaultAgentWeights exThreeBuy (by decide)
      (by norm_num [defaultAgentWeights])⟩

/-- C2: a validation attempt for an already resolved prediction id leaves
the tracker state (buffers and model weights) unchanged, and a validation
timer firing for a prediction id no longer in the rolling buffer is a
no-op. -/
theorem c2_validate_at_most_once (s : TrackerState) (predictionId : ℕ) (actualPrice : ℚ) :
    (s.predictions.find? (fun p => p.id == predictionId) = none →
      validatePrediction s predictionId actualPrice = s) ∧
    (∀ p, s.predictions.find? (fun p => p.id == predictionId) = some p →
      p.actualOutcome.isSome → validatePrediction s predictionId actualPrice = s) := by
  constructor
  · intro h
    unfold validatePrediction
    rw [h]
  · intro p hp hres
    unfold validatePrediction
    rw [hp]
    simp [hres]

/-- Witness for C2 at a concrete state holding one already resolved
prediction, plus a concrete evicted-id case. -/
theorem c2_validate_at_most_once_witness :
    exResolvedState.predictions.find? (fun p => p.id == 1) = some exResolvedPrediction ∧
    exResolvedPrediction.actualOutcome.isSome = true ∧
    validatePrediction exResolvedState 1 105 = exResolvedState ∧
    exResolvedState.predictions.find? (fun p => p.id == 7) = none ∧
    validatePrediction exResolvedState 7 105 = exResolvedState :=
  ⟨rfl, rfl,
    (c2_validate_at_most_once exResolvedState 1 105).2 exResolvedPrediction rfl rfl,
    rfl,
    (c2_validate_at_most_once exResolvedState 7 105).1 rfl⟩

/-- C3: starting from the default model weights, any sequence of
adjustModelWeights updates keeps the ai weight between 0.3 and 0.8 and
the technical weight between 0.2 and 0.7; in particular repeated
excellent-outcome updates never push a weight above its cap and repeated
poor-outcome updates never push it below its floor. -/
theorem c3_weight_updates_bounded (l : List OutcomeInput) :
    3/10 ≤ (applyOutcomes defaultModelWeights l).ai ∧
    (applyOutcomes defaultModelWeights l).ai ≤ 8/10 ∧
    2/10 ≤ (applyOutcomes defaultModelWeights l).technical ∧
    (applyOutcomes defaultModelWeights l).technical ≤ 7/10 :=
  applyOutcomes_inv l defaultModelWeights (by norm_num [mwInv, defaultModelWeights])

/-- C9 counterexample: on zero similar samples the pattern accuracy is the
neutral 50 and the dominant pattern is INSUFFICIENT_DATA, but the
confidence multiplier computed from that accuracy is 0.8, not the 1.0 the
claim states. -/
theorem c9_zero_matches_counterexample :
    calculatePatternAccuracy [] = 50 ∧
    identifyDominantPattern [] = "INSUFFICIENT_DATA" ∧
    calculateConfidenceAdjustment (calculatePatternAccuracy []) = 8/10 ∧
    (8/10 : ℚ) ≠ 1 := by
  refine ⟨rfl, rfl, ?_, by norm_num⟩
  norm_num [calculatePatternAccuracy, calculateConfidenceAdjustment]

/-- C9 (amended): when the historical pattern matcher finds zero similar
samples it returns accuracy 50 and the insufficient-data dominant
pattern, and the confidence multiplier derived from that accuracy is 0.8
(the at-least-40 tier applied to the neutral 50); the 1.0 multiplier
appears only in the error fallback object. -/
theorem c9_zero_matches_defaults :
    calculatePatternAccuracy [] = 50 ∧
    identifyDominantPattern [] = "INSUFFICIENT_DATA" ∧
    calculateConfidenceAdjustment (calculatePatternAccuracy []) = 8/10 := by
  refine ⟨rfl, rfl, ?_⟩
  norm_num [calculatePatternAccuracy, calculateConfidenceAdjustment]

/-- C4 counterexample: all three action-voting agents report BUY (at
confidence 40 each), yet the fused action is HOLD because the weighted
vote mass 0.34 does not exceed the 0.4 activation threshold. -/
theorem c4_unanimous_counterexample :
    exAllBuy40.technical.signal = some Sig.BUY ∧
    exAllBuy40.sentiment.signal = some Sig.BUY ∧
    exAllBuy40.research.signal = some Sig.BUY ∧
    (aggregateSignals defaultAgentWeights exAllBuy40).action = Sig.HOLD ∧
    Sig.HOLD ≠ Sig.BUY := by
  refine ⟨rfl, rfl, rfl, ?_, by decide⟩
  norm_num [aggregateSignals, aggTotals, stepAgent, confOr50, defaultAgentWeights, exAllBuy40,
    finalActionOf]

/-- C4 (amended): if all action-voting (non-risk) agents report the same
action X, the fused action is X only when X is HOLD or the accumulated
weighted vote mass exceeds the 0.4 threshold; below the threshold the
action falls back to HOLD.  The risk opinion never affects the action. -/
theorem c4_unanimous_action (w : AgentWeights) (res : OrchResults) :
    ((res.technical.signal = some Sig.BUY ∧ res.sentiment.signal = some Sig.BUY ∧
        res.research.signal = some Sig.BUY) →
      (aggregateSignals w res).action =
        (if 2/5 < weightedVoteSum w res then Sig.BUY else Sig.HOLD)) ∧
    ((res.technical.signal = some Sig.SELL ∧ res.sentiment.signal = some Sig.SELL ∧
        res.research.signal = some Sig.SELL) →
      (aggregateSignals w res).action =
        (if 2/5 < weightedVoteSum w res then Sig.SELL else Sig.HOLD)) ∧
    ((res.technical.signal = some Sig.HOLD ∧ res.sentiment.signal = some Sig.HOLD ∧
        res.research.signal = some Sig.HOLD) →
      (aggregateSignals w res).action = Sig.HOLD) ∧
    (∀ rk : AgentResult,
      (aggregateSignals w { res with risk := rk }).action = (aggregateSignals w res).action) := by
  refine ⟨?_, ?_, ?_, fun rk => rfl⟩
  · rintro ⟨h1, h2, h3⟩
    have hbuy : (aggTotals w res).buy = weightedVoteSum w res := by
      simp [aggTotals, stepAgent, h1, h2, h3, weightedVoteSum]
    have hsell : (aggTotals w res).sell = 0 := by
      simp [aggTotals, stepAgent, h1, h2, h3]
    have hhold : (aggTotals w res).hold = 0 := by
      simp [aggTotals, stepAgent, h1, h2, h3]
    show finalActionOf (aggTotals w res) = _
    by_cases hb : 2/5 < weightedVoteSum w res
    · rw [if_pos hb]
      simp only [finalActionOf, hbuy, hsell, hhold]
      rw [max_self, max_eq_left (by linarith : (0:ℚ) ≤ weightedVoteSum w res)]
      rw [if_pos ⟨rfl, hb⟩]
    · rw [if_neg hb]
      exact finalActionOf_hold _ (hbuy ▸ not_lt.mp hb) (by rw [hsell]; norm_num)
  · rintro ⟨h1, h2, h3⟩
    have hbuy : (aggTotals w res).buy = 0 := by
      simp [aggTotals, stepAgent, h1, h2, h3]
    have hsell : (aggTotals w res).sell = weightedVoteSum w res := by
      simp [aggTotals, stepAgent, h1, h2, h3, weightedVoteSum]
    have hhold : (aggTotals w res).hold = 0 := by
      simp [aggTotals, stepAgent, h1, h2, h3]
    show finalActionOf (aggTotals w res) = _
    by_cases hs : 2/5 < weightedVoteSum w res
    · rw [if_pos hs]
      simp only [finalActionOf, hbuy, hsell, hhold]
      rw [max_eq_left (by linarith : (0:ℚ) ≤ weightedVoteSum w res),
        max_eq_right (by linarith : (0:ℚ) ≤ weightedVoteSum w res)]
      rw [if_neg (fun hcon => absurd hcon.2 (by norm_num)), if_pos ⟨rfl, hs⟩]
    · rw [if_neg hs]
      exact finalActionOf_hold _ (by rw [hbuy]; norm_num) (hsell ▸ not_lt.mp hs)
  · rintro ⟨h1, h2, h3⟩
    have hbuy : (aggTotals w res).buy = 0 := by
      simp [aggTotals, stepAgent, h1, h2, h3]
    have hsell : (aggTotals w res).sell = 0 := by
      simp [aggTotals, stepAgent, h1, h2, h3]
    exact finalActionOf_hold _ (by rw [hbuy]; norm_num) (by rw [hsell]; norm_num)

/-- Witness for C4 at a concrete input: three BUY opinions at confidence
80, whose weighted vote mass 0.68 exceeds the threshold, so the fused
action is BUY. -/
theorem c4_unanimous_action_witness :
    (exAllBuy80.technical.signal = some Sig.BUY ∧ exAllBuy80.sentiment.signal = some Sig.BUY ∧
      exAllBuy80.research.signal = some Sig.BUY) ∧
    (aggregateSignals defaultAgentWeights exAllBuy80).action =
      (if 2/5 < weightedVoteSum defaultAgentWeights exAllBuy80 then Sig.BUY else Sig.HOLD) ∧
    (if 2/5 < weightedVoteSum defaultAgentWeights exAllBuy80 then Sig.BUY else Sig.HOLD) =
      Sig.BUY :=
  ⟨⟨rfl, rfl, rfl⟩,
    (c4_unanimous_action defaultAgentWeights exAllBuy80).1 ⟨rfl, rfl, rfl⟩,
    by norm_num [weightedVoteSum, confOr50, defaultAgentWeights, exAllBuy80]⟩

/-- C7 counterexample: with zero reporting sources the fused action is
HOLD, but the confidence is 50 (the neutral base times an unreduced risk
modifier, clamped), not the 20 the claim states, and no degraded-mode
flag exists on the returned record. -/
theorem c7_degraded_counterexample :
    (aggTotals defaultAgentWeights exNoAgents).validAgents = 0 ∧
    (aggregateSignals defaultAgentWeights exNoAgents).action = Sig.HOLD ∧
    (aggregateSignals defaultAgentWeights exNoAgents).confidence = 50 ∧
    (50 : ℤ) ≠ 20 := by
  refine ⟨rfl, ?_, ?_, by decide⟩
  · norm_num [aggregateSignals, aggTotals, stepAgent, exNoAgents, defaultAgentWeights,
      finalActionOf]
  · norm_num [aggregateSignals, aggTotals, stepAgent, exNoAgents, defaultAgentWeights,
      riskModifier, jsRound]

/-- C7 (amended): whenever fewer than 2 non-risk sources report (with the
default weights and reported confidences at most 100), the fused action
is HOLD and the confidence stays in the clamp interval from 20 to 95 and
no exception is raised; the confidence is not fixed at 20 and the
returned record carries no degraded-mode flag. -/
theorem c7_few_agents_hold (res : OrchResults)
    (hva : (aggTotals defaultAgentWeights res).validAgents ≤ 1)
    (h1 : confOr50 res.technical ≤ 100)
    (h2 : confOr50 res.sentiment ≤ 100)
    (h3 : confOr50 res.research ≤ 100) :
    (aggregateSignals defaultAgentWeights res).action = Sig.HOLD ∧
    20 ≤ (aggregateSignals defaultAgentWeights res).confidence ∧
    (aggregateSignals defaultAgentWeights res).confidence ≤ 95 := by
  have hbs : (aggTotals defaultAgentWeights res).buy ≤ 2/5 ∧
      (aggTotals defaultAgentWeights res).sell ≤ 2/5 := by
    rcases ht : res.technical.signal with _ | st <;>
      rcases hs : res.sentiment.signal with _ | ss <;>
        rcases hr : res.research.signal with _ | sr
    all_goals try { exfalso; simp only [aggTotals, stepAgent, ht, hs, hr] at hva; omega }
    all_goals refine ⟨?_, ?_⟩
    all_goals simp only [aggTotals, stepAgent, ht, hs, hr, defaultAgentWeights]
    all_goals try split_ifs
    all_goals linarith
  exact ⟨finalActionOf_hold _ hbs.1 hbs.2, le_max_left _ _,
    max_le (by norm_num) (min_le_left _ _)⟩

/-- Witness for C7 at a concrete input: a single reporting agent (BUY at
confidence 100) yields action HOLD with confidence inside the clamp. -/
theorem c7_few_agents_hold_witness :
    (aggTotals defaultAgentWeights exOneAgent).validAgents ≤ 1 ∧
    confOr50 exOneAgent.technical ≤ 100 ∧
    confOr50 exOneAgent.sentiment ≤ 100 ∧
    confOr50 exOneAgent.research ≤ 100 ∧
    ((aggregateSignals defaultAgentWeights exOneAgent).action = Sig.HOLD ∧
      20 ≤ (aggregateSignals defaultAgentWeights exOneAgent).confidence ∧
      (aggregateSignals defaultAgentWeights exOneAgent).confidence ≤ 95) :=
  ⟨by decide, by norm_num [confOr50, exOneAgent], by norm_num [confOr50, exOneAgent],
    by norm_num [confOr50, exOneAgent],
    c7_few_agents_hold exOneAgent (by decide) (by norm_num [confOr50, exOneAgent])
      (by norm_num [confOr50, exOneAgent]) (by norm_num [confOr50, exOneAgent])⟩

/-- C8 counterexample: with the risk opinion missing the modifier applied
to the confidence is 1.0 (risk adjustment 0), not the 0.7 the claim
states. -/
theorem c8_missing_risk_counterexample :
    exThreeBuy.risk.signal = none ∧
    riskModifier exThreeBuy.risk = 1 ∧
    (aggregateSignals defaultAgentWeights exThreeBuy).riskAdjustment = 0 ∧
    (1 : ℚ) ≠ 7/10 := by
  refine ⟨rfl, rfl, ?_, by norm_num⟩
  show jsRound ((1 - riskModifier exThreeBuy.risk) * 100) = 0
  rw [show riskModifier exThreeBuy.risk = 1 from rfl]
  rw [show ((1:ℚ) - 1) * 100 = 0 by norm_num]
  norm_num [jsRound]

/-- C8 (amended): a missing risk opinion, and likewise the risk agent's
HOLD error fallback, leaves the risk modifier at 1.0 (risk adjustment 0);
the 0.7 derate applies exactly to CAUTIOUS_TRADE and 0.3 to
AVOID_TRADE. -/
theorem c8_risk_modifier_defaults (w : AgentWeights) (res : OrchResults) :
    ((res.risk.signal = none ∨ res.risk.signal = some Sig.HOLD) →
      riskModifier res.risk = 1 ∧ (aggregateSignals w res).riskAdjustment = 0) ∧
    (res.risk.signal = some Sig.CAUTIOUS_TRADE →
      riskModifier res.risk = 7/10 ∧ (aggregateSignals w res).riskAdjustment = 30) ∧
    (res.risk.signal = some Sig.AVOID_TRADE →
      riskModifier res.risk = 3/10 ∧ (aggregateSignals w res).riskAdjustment = 70) := by
  refine ⟨?_, ?_, ?_⟩
  · intro h
    have hm : riskModifier res.risk = 1 := by
      rcases h with h | h <;> simp [riskModifier, h]
    refine ⟨hm, ?_⟩
    show jsRound ((1 - riskModifier res.risk) * 100) = 0
    rw [hm, show ((1:ℚ) - 1) * 100 = 0 by norm_num]
    norm_num [jsRound]
  · intro h
    have hm : riskModifier res.risk = 7/10 := by simp [riskModifier, h]
    refine ⟨hm, ?_⟩
    show jsRound ((1 - riskModifier res.risk) * 100) = 30
    rw [hm, show ((1:ℚ) - 7/10) * 100 = 30 by norm_num]
    norm_num [jsRound]
  · intro h
    have hm : riskModifier res.risk = 3/10 := by simp [riskModifier, h]
    refine ⟨hm, ?_⟩
    show jsRound ((1 - riskModifier res.risk) * 100) = 70
    rw [hm, show ((1:ℚ) - 3/10) * 100 = 70 by norm_num]
    norm_num [jsRound]

/-- Witness for C8 at a concrete input: the risk signal of the example is
missing, so the modifier is 1.0 and the risk adjustment 0. -/
theorem c8_risk_modifier_defaults_witness :
    (exAllBuy80.risk.signal = none ∨ exAllBuy80.risk.signal = some Sig.HOLD) ∧
    (riskModifier exAllBuy80.risk = 1 ∧
      (aggregateSignals defaultAgentWeights exAllBuy80).riskAdjustment = 0) :=
  ⟨Or.inl rfl,
    (c8_risk_modifier_defaults defaultAgentWeights exAllBuy80).1 (Or.inl rfl)⟩

/-- C5 counterexample: a BUY prediction with reference price 100 resolving
at 101.5 (move +1.5) and stated confidence 85 scores 92.5, not the
min(100, 70 + 15) = 85 the claim states, because the tracker averages the
base accuracy with the confidence calibration score. -/
theorem c5_buy_accuracy_counterexample :
    calculateAccuracy Sig.BUY ((1015/10 - 100) / 100 * 100) 85 = 185/2 ∧
    min 100 (70 + |((1015/10 : ℚ) - 100) / 100 * 100| * 10) = 85 ∧
    (185/2 : ℚ) ≠ 85 := by
  refine ⟨?_, ?_, by norm_num⟩
  · norm_num [calculateAccuracy, calculateConfidenceAccuracy, min_def, max_def]
  · rw [show |((1015/10 : ℚ) - 100) / 100 * 100| = 3/2 by
      rw [abs_of_nonneg (by norm_num)]; norm_num]
    norm_num [min_def]

/-- C5 (amended): for a BUY (SELL) prediction the base accuracy is
min(100, 70 + the absolute move times 10) exactly when the move is
strictly positive (negative), and max(0, 30 minus the absolute move times
5) otherwise; the returned accuracy score is the clamped average of that
base with the confidence calibration score, so the scenario BUY, move
+1.5, confidence 85 yields 92.5 rather than 85. -/
theorem c5_directional_accuracy_formula (m c : ℚ) :
    (0 < m → calculateAccuracy Sig.BUY m c =
      max 0 (min 100 ((min 100 (70 + m * 10) +
        calculateConfidenceAccuracy c (min 100 (70 + m * 10))) / 2))) ∧
    (m < 0 → calculateAccuracy Sig.SELL m c =
      max 0 (min 100 ((min 100 (70 + |m| * 10) +
        calculateConfidenceAccuracy c (min 100 (70 + |m| * 10))) / 2))) ∧
    (m ≤ 0 → calculateAccuracy Sig.BUY m c =
      max 0 (min 100 ((max 0 (30 - |m| * 5) +
        calculateConfidenceAccuracy c (max 0 (30 - |m| * 5))) / 2))) ∧
    (0 ≤ m → calculateAccuracy Sig.SELL m c =
      max 0 (min 100 ((max 0 (30 - |m| * 5) +
        calculateConfidenceAccuracy c (max 0 (30 - |m| * 5))) / 2))) ∧
    calculateAccuracy Sig.BUY (3/2) 85 = 185/2 := by
  refine ⟨?_, ?_, ?_, ?_, ?_⟩
  · intro h
    unfold calculateAccuracy
    rw [if_pos ⟨rfl, h⟩]
  · intro h
    unfold calculateAccuracy
    rw [if_neg (fun hc => absurd hc.1 (by decide)), if_pos ⟨rfl, h⟩]
  · intro h
    unfold calculateAccuracy
    rw [if_neg (fun hc => absurd hc.2 (not_lt.mpr h)),
      if_neg (fun hc => absurd hc.1 (by decide)),
      if_neg (fun hc => absurd hc.1 (by decide)),
      if_neg (fun hc => absurd hc.1 (by decide))]
  · intro h
    unfold calculateAccuracy
    rw [if_neg (fun hc => absurd hc.1 (by decide)),
      if_neg (fun hc => absurd hc.2 (not_lt.mpr h)),
      if_neg (fun hc => absurd hc.1 (by decide)),
      if_neg (fun hc => absurd hc.1 (by decide))]
  · norm_num [calculateAccuracy, calculateConfidenceAccuracy, min_def, max_def]

/-- Witness for C5 at the concrete scenario input (move +1.5, confidence
85). -/
theorem c5_directional_accuracy_formula_witness :
    (0 : ℚ) < 3/2 ∧
    calculateAccuracy Sig.BUY (3/2) 85 =
      max 0 (min 100 ((min 100 (70 + (3/2) * 10) +
        calculateConfidenceAccuracy 85 (min 100 (70 + (3/2) * 10))) / 2)) :=
  ⟨by norm_num, (c5_directional_accuracy_formula (3/2) 85).1 (by norm_num)⟩

/-- C6 counterexample: a HOLD prediction resolving with move 0.05 and
stated confidence 80 scores 90 (the tiered base 80 averaged with a
perfect calibration score 100), not the max(0, 100 - 0.5) = 99.5 the
claim states. -/
theorem c6_hold_accuracy_counterexample :
    calculateAccuracy Sig.HOLD (1/20) 80 = 90 ∧
    max 0 (100 - |(1/20 : ℚ)| * 10) = 199/2 ∧
    (90 : ℚ) ≠ 199/2 := by
  have hb : Sig.HOLD ≠ Sig.BUY := by decide
  have hs : Sig.HOLD ≠ Sig.SELL := by decide
  have habs : |(1/20 : ℚ)| = 1/20 := abs_of_nonneg (by norm_num)
  refine ⟨?_, ?_, by norm_num⟩
  · norm_num [calculateAccuracy, calculateConfidenceAccuracy, min_def, max_def, hb, hs, habs]
  · rw [abs_of_nonneg (by norm_num : (0:ℚ) ≤ 1/20)]
    norm_num [max_def]

/-- C6 (amended): the HOLD accuracy base is tiered, not linear: 80 when
the absolute move is below 0.2, 60 when it is below 0.5, and
max(0, 30 minus the absolute move times 5) beyond; the returned score is
the clamped average of that base with the confidence calibration score,
so a HOLD resolving with move 0.05 at confidence 80 scores 90. -/
theorem c6_hold_accuracy_tiers (m c : ℚ) :
    (|m| < 2/10 → calculateAccuracy Sig.HOLD m c =
      max 0 (min 100 ((80 + calculateConfidenceAccuracy c 80) / 2))) ∧
    (2/10 ≤ |m| → |m| < 5/10 → calculateAccuracy Sig.HOLD m c =
      max 0 (min 100 ((60 + calculateConfidenceAccuracy c 60) / 2))) ∧
    (5/10 ≤ |m| → calculateAccuracy Sig.HOLD m c =
      max 0 (min 100 ((max 0 (30 - |m| * 5) +
        calculateConfidenceAccuracy c (max 0 (30 - |m| * 5))) / 2))) ∧
    calculateAccuracy Sig.HOLD (1/20) 80 = 90 := by
  refine ⟨?_, ?_, ?_, ?_⟩
  · intro h
    unfold calculateAccuracy
    rw [if_neg (fun hc => absurd hc.1 (by decide)),
      if_neg (fun hc => absurd hc.1 (by decide)),
      if_pos ⟨rfl, h⟩]
  · intro h1 h2
    unfold calculateAccuracy
    rw [if_neg (fun hc => absurd hc.1 (by decide)),
      if_neg (fun hc => absurd hc.1 (by decide)),
      if_neg (fun hc => absurd hc.2 (not_lt.mpr h1)),
      if_pos ⟨rfl, h2⟩]
  · intro h
    unfold calculateAccuracy
    rw [if_neg (fun hc => absurd hc.1 (by decide)),
      if_neg (fun hc => absurd hc.1 (by decide)),
      if_neg (fun hc => absurd hc.2 (not_lt.mpr (le_trans (by norm_num) h))),
      if_neg (fun hc => absurd hc.2 (not_lt.mpr h))]
  · have hb : Sig.HOLD ≠ Sig.BUY := by decide
    have hs : Sig.HOLD ≠ Sig.SELL := by decide
    have habs : |(1/20 : ℚ)| = 1/20 := abs_of_nonneg (by norm_num)
    norm_num [calculateAccuracy, calculateConfidenceAccuracy, min_def, max_def, hb, hs, habs]

/-- Witness for C6 at the concrete scenario input (move 0.05, confidence
80). -/
theorem c6_hold_accuracy_tiers_witness :
    |(1/20 : ℚ)| < 2/10 ∧
    calculateAccuracy Sig.HOLD (1/20) 80 =
      max 0 (min 100 ((80 + calculateConfidenceAccuracy 80 80) / 2)) :=
  ⟨by rw [abs_of_nonneg (by norm_num : (0:ℚ) ≤ 1/20)]; norm_num,
    (c6_hold_accuracy_tiers (1/20) 80).1
      (by rw [abs_of_nonneg (by norm_num : (0:ℚ) ≤ 1/20)]; norm_num)⟩

/-- C10: the four calibration buckets are pairwise disjoint (each
prediction lands in at most one), any confidence below 20 or strictly
inside one of the gaps (39,40), (59,60), (79,80) matches no bucket, and a
prediction whose confidence matches no bucket leaves the whole
calibration output unchanged (it is silently excluded). -/
theorem c10_calibration_buckets :
    (∀ c : ℚ, (c < 20 ∨ (39 < c ∧ c < 40) ∨ (59 < c ∧ c < 60) ∨ (79 < c ∧ c < 80)) →
      bucketFor c = none) ∧
    (∀ (c : ℚ) (r1 r2 : ℚ × ℚ), r1 ∈ calibRanges → r2 ∈ calibRanges →
      r1.1 ≤ c ∧ c ≤ r1.2 → r2.1 ≤ c ∧ c ≤ r2.2 → r1 = r2) ∧
    (∀ (p : Prediction) (ps : List Prediction), bucketFor p.confidence = none →
      calculateConfidenceCalibration (p :: ps) = calculateConfidenceCalibration ps) := by
  refine ⟨?_, ?_, ?_⟩
  · intro c hc
    unfold bucketFor
    split_ifs with ha hb hd he
    · exfalso; rcases hc with h | ⟨h1, h2⟩ | ⟨h1, h2⟩ | ⟨h1, h2⟩ <;> linarith [ha.1]
    · exfalso; rcases hc with h | ⟨h1, h2⟩ | ⟨h1, h2⟩ | ⟨h1, h2⟩ <;> linarith [hb.1, hb.2]
    · exfalso; rcases hc with h | ⟨h1, h2⟩ | ⟨h1, h2⟩ | ⟨h1, h2⟩ <;> linarith [hd.1, hd.2]
    · exfalso; rcases hc with h | ⟨h1, h2⟩ | ⟨h1, h2⟩ | ⟨h1, h2⟩ <;> linarith [he.1, he.2]
    · rfl
  · intro c r1 r2 h1 h2 hc1 hc2
    simp only [calibRanges] at h1 h2
    fin_cases h1 <;> fin_cases h2 <;>
      first
        | rfl
        | (exfalso
           obtain ⟨a1, a2⟩ := hc1
           obtain ⟨b1, b2⟩ := hc2
           dsimp only at a1 a2 b1 b2
           linarith)
  · intro p ps h
    have hf : ∀ r : ℚ × ℚ, (p :: ps).filter (fun q => bucketFor q.confidence == some r) =
        ps.filter (fun q => bucketFor q.confidence == some r) := by
      intro r
      rw [List.filter_cons]
      have hb : (bucketFor p.confidence == some r) = false := by rw [h]; rfl
      rw [hb]
      simp
    show calibRanges.map (calibEntryFor (p :: ps)) = calibRanges.map (calibEntryFor ps)
    refine List.map_congr_left fun r hr => ?_
    unfold calibEntryFor
    rw [hf r]

/-- Witness for C10 at concrete inputs: confidence 39.5 (producible by the
unrounded multiplier step) lies in a gap and matches no bucket, and a
gap-confidence prediction does not change the calibration output. -/
theorem c10_calibration_buckets_witness :
    ((79/2 : ℚ) < 20 ∨ ((39:ℚ) < 79/2 ∧ (79/2:ℚ) < 40) ∨
      ((59:ℚ) < 79/2 ∧ (79/2:ℚ) < 60) ∨ ((79:ℚ) < 79/2 ∧ (79/2:ℚ) < 80)) ∧
    bucketFor (79/2) = none ∧
    bucketFor exGapPrediction.confidence = none ∧
    calculateConfidenceCalibration [exGapPrediction] = calculateConfidenceCalibration [] :=
  ⟨Or.inr (Or.inl ⟨by norm_num, by norm_num⟩),
    c10_calibration_buckets.1 (79/2) (Or.inr (Or.inl ⟨by norm_num, by norm_num⟩)),
    by norm_num [bucketFor, exGapPrediction],
    c10_calibration_buckets.2.2 exGapPrediction []
      (by norm_num [bucketFor, exGapPrediction])⟩
